import Mathlib

/-!
Shallow embedding of `backend/main.go`: a minimal HTTP service that accepts a
service-request submission as JSON on `/submit-service`, inserts it into a
`solicitudes` table, and answers every other path with a static welcome text.
The embedding models the JSON values a request body can carry, the Go
`encoding/json` decoding of such a value into the `Solicitud` struct, the
store (table rows plus an oracle for `db.Exec` failure), the two HTTP
handlers, and the fatal startup sequence of `main`.
-/

/-- `Solicitud` from `main.go`: the three-field record a submission decodes
into; the json tags are `nombre`, `telefono`, `servicio`. -/
structure Solicitud where
  nombre : String
  telefono : String
  servicio : String
deriving DecidableEq

/-- A decoded JSON value, as the request body presents it to the handler. -/
inductive Json where
  | null : Json
  | bool (b : Bool) : Json
  | num (n : Int) : Json
  | str (s : String) : Json
  | arr (elems : List Json) : Json
  | obj (fields : List (String × Json)) : Json

/-- Go `encoding/json` compares an object key with a struct field tag by
Unicode simple case folding (`strings.EqualFold` semantics). The tags of
`Solicitud` are lowercase ASCII letters, and under simple folding the fold
class of a lowercase ASCII letter holds exactly its two ASCII cases plus
U+212A KELVIN SIGN for `k` and U+017F LATIN SMALL LETTER LONG S for `s`; this
fold normalises those two runes to their ASCII letter and every other rune to
its ASCII lowercase. Runes outside these classes never fold onto an ASCII
letter, so fold-equality with the tags is captured exactly. -/
def foldChar (c : Char) : Char :=
  if c = 'K' then 'k'
  else if c = 'ſ' then 's'
  else c.toLower

/-- `jsonKeyMatch tag key`: the incoming object key assigns the struct field
tagged `tag` (the two rune sequences are equal under simple folding). -/
def jsonKeyMatch (tag key : String) : Bool :=
  tag.data.map foldChar == key.data.map foldChar

/-- Unmarshalling one JSON value into a Go `string` field: a JSON string
assigns it, JSON null is a no-op that keeps the current value, and any other
JSON type records an UnmarshalTypeError while decoding continues. -/
def unmarshalStringField (cur : String) (err : Bool) (v : Json) : String × Bool :=
  match v with
  | Json.str s => (s, err)
  | Json.null => (cur, err)
  | _ => (cur, true)

/-- One object key processed in stream order: a key matching a tag unmarshals
its value into that field, any other key is skipped. The error flag is
sticky — `Decode` reports the earliest UnmarshalTypeError even when a later
duplicate occurrence of the key assigns the field. -/
def unmarshalStep (acc : Solicitud × Bool) (kv : String × Json) : Solicitud × Bool :=
  if jsonKeyMatch "nombre" kv.1 then
    let r := unmarshalStringField acc.1.nombre acc.2 kv.2
    ({ acc.1 with nombre := r.1 }, r.2)
  else if jsonKeyMatch "telefono" kv.1 then
    let r := unmarshalStringField acc.1.telefono acc.2 kv.2
    ({ acc.1 with telefono := r.1 }, r.2)
  else if jsonKeyMatch "servicio" kv.1 then
    let r := unmarshalStringField acc.1.servicio acc.2 kv.2
    ({ acc.1 with servicio := r.1 }, r.2)
  else acc

/-- The stream fold over an object body: the struct built up from the zero
value, and whether any matching occurrence was ill-typed. -/
def unmarshalObj (fields : List (String × Json)) : Solicitud × Bool :=
  fields.foldl unmarshalStep (⟨"", "", ""⟩, false)

/-- Decoding one JSON value into `Solicitud`: a top-level `null` succeeds and
leaves all zero values, any other non-object fails, and an object is decoded
by the stream fold — succeeding only when no matching occurrence of any field
was ill-typed. -/
def decodeSolicitudJson : Json → Option Solicitud
  | Json.null => some ⟨"", "", ""⟩
  | Json.obj fields =>
    if (unmarshalObj fields).2 then none else some (unmarshalObj fields).1
  | _ => none

/-- The object key either assigns no field of `Solicitud` or carries a value a
Go string field accepts without error (a string or null). -/
def wellTypedField (kv : String × Json) : Bool :=
  if jsonKeyMatch "nombre" kv.1 || jsonKeyMatch "telefono" kv.1
      || jsonKeyMatch "servicio" kv.1 then
    match kv.2 with
    | Json.str _ => true
    | Json.null => true
    | _ => false
  else true

/-- `json.NewDecoder(r.Body).Decode(&solicitud)`: `none` models a body whose
first value is not syntactically valid JSON (the decoder errors before any
field is examined); `some j` models a body whose first value parses as `j`. -/
def decodeSolicitud : Option Json → Option Solicitud
  | none => none
  | some j => decodeSolicitudJson j

/-- An HTTP request as the handlers see it: method, URL path, and the body
abstracted to its JSON parse. -/
structure Request where
  method : String
  path : String
  body : Option Json

/-- The response header map, written through `Header().Set`. -/
abbrev Headers := List (String × String)

/-- `w.Header().Set(k, v)`: replaces any existing values for the key. -/
def setHeader (hs : Headers) (k v : String) : Headers :=
  hs.filter (fun p => p.1 != k) ++ [(k, v)]

/-- `hs` carries some value for the header `k`. -/
def hasHeader (hs : Headers) (k : String) : Bool :=
  hs.any (fun p => p.1 == k)

/-- `hs` carries exactly the value `v` for the header `k`. -/
def hasHeaderVal (hs : Headers) (k v : String) : Bool :=
  hs.any (fun p => p.1 == k && p.2 == v)

/-- A finished HTTP response: status code, header map, body bytes. -/
structure Response where
  status : Nat
  headers : Headers
  body : String
deriving DecidableEq

/-- One row of the `solicitudes` table. `fecha_creacion` is filled by the
store from the current clock and carries no program-determined value, so it is
not modelled. -/
structure Row where
  id : Nat
  nombre : String
  telefono : String
  servicio : String
deriving DecidableEq

/-- The store: the `solicitudes` table (`nextId` is the `AUTO_INCREMENT`
counter) together with an oracle for `db.Exec` failure — when `healthy` is
false the insert fails and the driver reports `errMsg`. -/
structure DB where
  nextId : Nat
  rows : List Row
  healthy : Bool
  errMsg : String
deriving DecidableEq

/-- `db.Exec(insertSQL, nombre, telefono, servicio)`: appends one row carrying
the auto-increment id, or reports the store error. -/
def dbExecInsert (db : DB) (s : Solicitud) : Except String DB :=
  if db.healthy then
    Except.ok { db with
      nextId := db.nextId + 1,
      rows := db.rows ++ [⟨db.nextId, s.nombre, s.telefono, s.servicio⟩] }
  else
    Except.error db.errMsg

/-- `http.Error(w, msg, code)`: overwrites Content-Type with text/plain, adds
the nosniff header, writes the status code and the message followed by a
newline. -/
def httpError (hs : Headers) (msg : String) (code : Nat) : Response :=
  { status := code,
    headers := setHeader (setHeader hs "Content-Type" "text/plain; charset=utf-8")
      "X-Content-Type-Options" "nosniff",
    body := msg ++ "\n" }

/-- The 405 body written by `submitServiceHandler`. -/
def msgMethodNotAllowed : String := "\x7b\"message\": \"Método no permitido\"\x7d"

/-- The 400 body written when JSON decoding fails. -/
def msgBadJson : String := "\x7b\"message\": \"Error al decodificar la solicitud JSON\"\x7d"

/-- The generic 500 body written when the insert fails. -/
def msgInsertError : String := "\x7b\"message\": \"Error interno del servidor al guardar la solicitud\"\x7d"

/-- The success body as `json.NewEncoder(w).Encode` serialises it (compact,
the encoder itself appends the trailing newline). -/
def msgSuccess : String := "\x7b\"message\":\"Solicitud recibida con éxito!\"\x7d"

/-- The default-route welcome text passed to `http.Error` with status 200. -/
def msgWelcome : String := "Bienvenido a la API de servicios. Usa /submit-service para enviar datos."

/-- The `log.Printf` line emitted for every decoded submission. -/
def logRecibida (s : Solicitud) : String :=
  "Solicitud recibida para el servicio \x27" ++ s.servicio ++ "\x27: Nombre=\x27"
    ++ s.nombre ++ "\x27, Teléfono=\x27" ++ s.telefono ++ "\x27"

/-- The headers `submitServiceHandler` writes on entry, over whatever the root
handler already wrote. -/
def corsSubmitHeaders (hs0 : Headers) : Headers :=
  setHeader (setHeader (setHeader (setHeader hs0
    "Access-Control-Allow-Origin" "*")
    "Access-Control-Allow-Methods" "POST, OPTIONS")
    "Access-Control-Allow-Headers" "Content-Type, Access-Control-Allow-Headers, Authorization, X-Requested-With")
    "Content-Type" "application/json"

/-- `submitServiceHandler` from `main.go`. It receives the header map already
written by the root handler, the request and the store; it returns the
response, the store after the call, and the log lines written during it. -/
def submitServiceHandler (hs0 : Headers) (r : Request) (db : DB) :
    Response × DB × List String :=
  let hs := corsSubmitHeaders hs0
  if r.method = "OPTIONS" then
    ({ status := 200, headers := hs, body := "" }, db, [])
  else if r.method ≠ "POST" then
    (httpError hs msgMethodNotAllowed 405, db, [])
  else
    match decodeSolicitud r.body with
    | none => (httpError hs msgBadJson 400, db, [])
    | some s =>
      match dbExecInsert db s with
      | Except.error e =>
        (httpError hs msgInsertError 500, db,
          [logRecibida s, "Error al insertar en la base de datos: " ++ e])
      | Except.ok db2 =>
        ({ status := 200, headers := hs, body := msgSuccess ++ "\n" }, db2,
          [logRecibida s])

/-- The CORS headers the root handler writes on every request before any
dispatch. -/
def corsRootHeaders : Headers :=
  setHeader (setHeader (setHeader ([] : Headers)
    "Access-Control-Allow-Origin" "*")
    "Access-Control-Allow-Methods" "POST, GET, OPTIONS, PUT, DELETE")
    "Access-Control-Allow-Headers" "Content-Type, Access-Control-Allow-Headers, Authorization, X-Requested-With"

/-- The anonymous handler registered on `"/"` in `main`: writes the permissive
CORS headers, short-circuits OPTIONS pre-flight, dispatches `/submit-service`
to `submitServiceHandler`, and answers every other path with the static
welcome text through `http.Error` at status 200. -/
def rootHandler (r : Request) (db : DB) : Response × DB × List String :=
  if r.method = "OPTIONS" then
    ({ status := 200, headers := corsRootHeaders, body := "" }, db, [])
  else if r.path = "/submit-service" then
    submitServiceHandler corsRootHeaders r db
  else
    (httpError corsRootHeaders msgWelcome 200, db, [])

/-- The environment `main` starts under: `mysqlUrl` is `os.Getenv("MYSQL_URL")`
(empty when unset), and the three `Option String` fields are oracles for the
errors of `sql.Open`, `db.Ping` and the `CREATE TABLE` `db.Exec`. -/
structure StartupEnv where
  mysqlUrl : String
  openErr : Option String
  pingErr : Option String
  createTableErr : Option String
deriving DecidableEq

/-- What becomes of the process during startup: `log.Fatal` with a diagnostic,
or reaching `http.ListenAndServe`. -/
inductive StartupOutcome where
  | fatal (msg : String)
  | listening
deriving DecidableEq

/-- The `log.Fatal` message for a missing `MYSQL_URL`. -/
def fatalMsgUrl : String :=
  "La variable de entorno MYSQL_URL no está configurada. Asegúrate de que Railway la esté inyectando o configúrala localmente para pruebas."

/-- The startup sequence of `main` up to `http.ListenAndServe`: check
`MYSQL_URL`, open the connection, ping it, create the table; each failure is
an immediate `log.Fatal`. -/
def startup (e : StartupEnv) : StartupOutcome :=
  if e.mysqlUrl = "" then StartupOutcome.fatal fatalMsgUrl
  else
    match e.openErr with
    | some m => StartupOutcome.fatal ("Error al conectar a la base de datos: " ++ m)
    | none =>
      match e.pingErr with
      | some m => StartupOutcome.fatal ("Error al hacer ping a la base de datos: " ++ m)
      | none =>
        match e.createTableErr with
        | some m => StartupOutcome.fatal ("Error al crear la tabla \x27solicitudes\x27: " ++ m)
        | none => StartupOutcome.listening

/-- C1: a POST to /submit-service whose body decodes into the three fields
nombre, telefono, servicio (all non-empty) is answered 200 with the JSON
success message, and exactly one new row is appended to the solicitudes table
whose three text fields equal the request's fields. -/
theorem c1_valid_post_inserts_row (b : Option Json) (db : DB) (s : Solicitud)
    (hdec : decodeSolicitud b = some s)
    (hn : s.nombre ≠ "") (ht : s.telefono ≠ "") (hs : s.servicio ≠ "")
    (hok : db.healthy = true) :
    (rootHandler ⟨"POST", "/submit-service", b⟩ db).1.status = 200 ∧
    (rootHandler ⟨"POST", "/submit-service", b⟩ db).1.body = msgSuccess ++ "\n" ∧
    (rootHandler ⟨"POST", "/submit-service", b⟩ db).2.1.rows =
      db.rows ++ [⟨db.nextId, s.nombre, s.telefono, s.servicio⟩] := by
  simp [rootHandler, submitServiceHandler, hdec, dbExecInsert, hok]

/-- Witness for C1 at the spec's concrete payload, against an empty healthy
store. -/
theorem c1_valid_post_inserts_row_witness :
    (rootHandler ⟨"POST", "/submit-service",
        some (Json.obj [("nombre", Json.str "Ana"), ("telefono", Json.str "555-1234"),
          ("servicio", Json.str "limpieza")])⟩ ⟨0, [], true, ""⟩).1.status = 200 :=
  (c1_valid_post_inserts_row
    (some (Json.obj [("nombre", Json.str "Ana"), ("telefono", Json.str "555-1234"),
      ("servicio", Json.str "limpieza")]))
    ⟨0, [], true, ""⟩ ⟨"Ana", "555-1234", "limpieza"⟩ (by decide)
    (by decide) (by decide) (by decide) rfl).1

/-- C2: a POST to /submit-service whose body does not decode into the
three-field record (malformed JSON or wrong-typed fields) is answered 400 with
the JSON error body, and the store is unchanged. -/
theorem c2_undecodable_body_400 (b : Option Json) (db : DB)
    (hdec : decodeSolicitud b = none) :
    (rootHandler ⟨"POST", "/submit-service", b⟩ db).1.status = 400 ∧
    (rootHandler ⟨"POST", "/submit-service", b⟩ db).1.body = msgBadJson ++ "\n" ∧
    (rootHandler ⟨"POST", "/submit-service", b⟩ db).2.1 = db := by
  simp [rootHandler, submitServiceHandler, hdec, httpError]

/-- Witness for C2 at the spec's concrete wrong-typed payload
`\x7b"nombre": 123\x7d`. -/
theorem c2_undecodable_body_400_witness :
    (rootHandler ⟨"POST", "/submit-service", some (Json.obj [("nombre", Json.num 123)])⟩
      ⟨0, [], true, ""⟩).1.status = 400 :=
  (c2_undecodable_body_400 (some (Json.obj [("nombre", Json.num 123)]))
    ⟨0, [], true, ""⟩ (by decide)).1

/-- C3: a request to /submit-service whose method is neither POST nor OPTIONS
is answered 405 with the JSON method-not-allowed body, for any body content,
and the store is unchanged. -/
theorem c3_other_method_405 (m : String) (b : Option Json) (db : DB)
    (hm1 : m ≠ "POST") (hm2 : m ≠ "OPTIONS") :
    (rootHandler ⟨m, "/submit-service", b⟩ db).1.status = 405 ∧
    (rootHandler ⟨m, "/submit-service", b⟩ db).1.body = msgMethodNotAllowed ++ "\n" ∧
    (rootHandler ⟨m, "/submit-service", b⟩ db).2.1 = db := by
  simp [rootHandler, submitServiceHandler, hm1, hm2, httpError]

/-- Witness for C3 at a GET with a valid body. -/
theorem c3_other_method_405_witness :
    (rootHandler ⟨"GET", "/submit-service",
        some (Json.obj [("nombre", Json.str "Ana")])⟩ ⟨0, [], true, ""⟩).1.status = 405 :=
  (c3_other_method_405 "GET" (some (Json.obj [("nombre", Json.str "Ana")]))
    ⟨0, [], true, ""⟩ (by decide) (by decide)).1

/-- C4: an OPTIONS request to any path is answered 200 with an empty body and
no store interaction, short-circuiting before any other handler logic; the
same short-circuit sits at the top of submitServiceHandler itself. -/
theorem c4_options_preflight_200 (p : String) (b : Option Json) (db : DB) (hs0 : Headers) :
    rootHandler ⟨"OPTIONS", p, b⟩ db =
      ({ status := 200, headers := corsRootHeaders, body := "" }, db, []) ∧
    submitServiceHandler hs0 ⟨"OPTIONS", p, b⟩ db =
      ({ status := 200, headers := corsSubmitHeaders hs0, body := "" }, db, []) := by
  constructor <;> simp [rootHandler, submitServiceHandler]

/-- C5: a POST to /submit-service that decodes but whose insert fails is
answered 500 with the generic JSON error body; the store is unchanged, the
underlying error is written to the log, and the response body does not contain
the underlying error text. -/
theorem c5_insert_failure_500 (b : Option Json) (db : DB) (s : Solicitud)
    (hdec : decodeSolicitud b = some s)
    (hfail : db.healthy = false) :
    (rootHandler ⟨"POST", "/submit-service", b⟩ db).1.status = 500 ∧
    (rootHandler ⟨"POST", "/submit-service", b⟩ db).1.body = msgInsertError ++ "\n" ∧
    (rootHandler ⟨"POST", "/submit-service", b⟩ db).2.1 = db ∧
    ("Error al insertar en la base de datos: " ++ db.errMsg) ∈
      (rootHandler ⟨"POST", "/submit-service", b⟩ db).2.2 ∧
    (¬ db.errMsg.data <:+: (msgInsertError ++ "\n").data →
      ¬ db.errMsg.data <:+: (rootHandler ⟨"POST", "/submit-service", b⟩ db).1.body.data) := by
  simp [rootHandler, submitServiceHandler, hdec, dbExecInsert, hfail, httpError]

/-- Witness for C5 at the spec's concrete payload against a failing store. -/
theorem c5_insert_failure_500_witness :
    (rootHandler ⟨"POST", "/submit-service",
        some (Json.obj [("nombre", Json.str "Ana"), ("telefono", Json.str "555-1234"),
          ("servicio", Json.str "limpieza")])⟩
      ⟨0, [], false, "connection refused"⟩).1.status = 500 :=
  (c5_insert_failure_500
    (some (Json.obj [("nombre", Json.str "Ana"), ("telefono", Json.str "555-1234"),
      ("servicio", Json.str "limpieza")]))
    ⟨0, [], false, "connection refused"⟩ ⟨"Ana", "555-1234", "limpieza"⟩
    (by decide) rfl).1

/-- C6: submission is not idempotent: two identical successful POSTs append
two rows, each with its own auto-increment id, and those rows are distinct. -/
theorem c6_two_posts_two_rows (b : Option Json) (db : DB) (s : Solicitud)
    (hdec : decodeSolicitud b = some s)
    (hok : db.healthy = true) :
    ((rootHandler ⟨"POST", "/submit-service", b⟩
        ((rootHandler ⟨"POST", "/submit-service", b⟩ db).2.1)).2.1).rows =
      db.rows ++
        [⟨db.nextId, s.nombre, s.telefono, s.servicio⟩,
         ⟨db.nextId + 1, s.nombre, s.telefono, s.servicio⟩] ∧
    (⟨db.nextId, s.nombre, s.telefono, s.servicio⟩ : Row) ≠
      ⟨db.nextId + 1, s.nombre, s.telefono, s.servicio⟩ := by
  constructor
  · simp [rootHandler, submitServiceHandler, hdec, dbExecInsert, hok]
  · simp [Row.mk.injEq]

/-- Witness for C6: two identical POSTs against an empty healthy store leave
two distinct rows with ids 0 and 1. -/
theorem c6_two_posts_two_rows_witness :
    ((rootHandler ⟨"POST", "/submit-service",
        some (Json.obj [("nombre", Json.str "Ana"), ("telefono", Json.str "555-1234"),
          ("servicio", Json.str "limpieza")])⟩
      ((rootHandler ⟨"POST", "/submit-service",
          some (Json.obj [("nombre", Json.str "Ana"), ("telefono", Json.str "555-1234"),
            ("servicio", Json.str "limpieza")])⟩ ⟨0, [], true, ""⟩).2.1)).2.1).rows =
      [⟨0, "Ana", "555-1234", "limpieza"⟩, ⟨1, "Ana", "555-1234", "limpieza"⟩] :=
  (c6_two_posts_two_rows
    (some (Json.obj [("nombre", Json.str "Ana"), ("telefono", Json.str "555-1234"),
      ("servicio", Json.str "limpieza")]))
    ⟨0, [], true, ""⟩ ⟨"Ana", "555-1234", "limpieza"⟩ (by decide) rfl).1

/-- C7: every response the service produces — success, 400, 405, 500, OPTIONS
pre-flight and default-route responses alike — carries
Access-Control-Allow-Origin: * and some value for Access-Control-Allow-Methods
and Access-Control-Allow-Headers. -/
theorem c7_cors_headers_always (r : Request) (db : DB) :
    hasHeaderVal (rootHandler r db).1.headers "Access-Control-Allow-Origin" "*" = true ∧
    hasHeader (rootHandler r db).1.headers "Access-Control-Allow-Methods" = true ∧
    hasHeader (rootHandler r db).1.headers "Access-Control-Allow-Headers" = true := by
  obtain ⟨m, p, b⟩ := r
  by_cases hm : m = "OPTIONS"
  · subst hm
    simp [rootHandler]
    decide
  · by_cases hp : p = "/submit-service"
    · subst hp
      by_cases hpost : m = "POST"
      · subst hpost
        simp [rootHandler, submitServiceHandler]
        cases hdec : decodeSolicitud b with
        | none => simp [hdec]; decide
        | some s =>
          simp [hdec, dbExecInsert]
          cases hh : db.healthy with
          | false => simp; decide
          | true => simp; decide
      · simp [rootHandler, submitServiceHandler, hm, hpost]
        decide
    · simp [rootHandler, hm, hp]
      decide

/-- C8: startup reaches the listening server exactly when MYSQL_URL is set and
opening, pinging and table creation all succeed; each failure is an immediate
fatal diagnostic. -/
theorem c8_startup_fatal_gating (e : StartupEnv) :
    (startup e = StartupOutcome.listening ↔
      e.mysqlUrl ≠ "" ∧ e.openErr = none ∧ e.pingErr = none ∧ e.createTableErr = none) ∧
    (e.mysqlUrl = "" → startup e = StartupOutcome.fatal fatalMsgUrl) ∧
    (∀ m, e.mysqlUrl ≠ "" → e.openErr = some m →
      startup e = StartupOutcome.fatal ("Error al conectar a la base de datos: " ++ m)) ∧
    (∀ m, e.mysqlUrl ≠ "" → e.openErr = none → e.pingErr = some m →
      startup e = StartupOutcome.fatal ("Error al hacer ping a la base de datos: " ++ m)) ∧
    (∀ m, e.mysqlUrl ≠ "" → e.openErr = none → e.pingErr = none → e.createTableErr = some m →
      startup e = StartupOutcome.fatal ("Error al crear la tabla \x27solicitudes\x27: " ++ m)) := by
  obtain ⟨u, o, pg, c⟩ := e
  refine ⟨?_, ?_, ?_, ?_, ?_⟩
  · by_cases hu : u = ""
    · subst hu; simp [startup]
    · cases o <;> cases pg <;> cases c <;> simp [startup, hu]
  · intro hu; subst hu; simp [startup]
  · intro m hu ho; subst ho; simp [startup, hu]
  · intro m hu ho hp; subst ho; subst hp; simp [startup, hu]
  · intro m hu ho hp hc; subst ho; subst hp; subst hc; simp [startup, hu]

/-- Witness for C8: an unset MYSQL_URL is fatal with its diagnostic. -/
theorem c8_startup_fatal_gating_witness :
    startup ⟨"", none, none, none⟩ = StartupOutcome.fatal fatalMsgUrl :=
  (c8_startup_fatal_gating ⟨"", none, none, none⟩).2.1 rfl

/-- C9: a non-OPTIONS request to any path other than /submit-service is
answered 200 with the static plain-text welcome message, and the store is
unchanged. -/
theorem c9_default_route_200 (m p : String) (b : Option Json) (db : DB)
    (hm : m ≠ "OPTIONS") (hp : p ≠ "/submit-service") :
    (rootHandler ⟨m, p, b⟩ db).1.status = 200 ∧
    (rootHandler ⟨m, p, b⟩ db).1.body = msgWelcome ++ "\n" ∧
    (rootHandler ⟨m, p, b⟩ db).2.1 = db := by
  simp [rootHandler, hm, hp, httpError]

/-- Witness for C9 at a GET to the root path. -/
theorem c9_default_route_200_witness :
    (rootHandler ⟨"GET", "/", none⟩ ⟨0, [], true, ""⟩).1.status = 200 :=
  (c9_default_route_200 "GET" "/" none ⟨0, [], true, ""⟩ (by decide) (by decide)).1

/-- A well-typed object key leaves the error flag of the stream fold where it
was. -/
theorem unmarshalStep_err_of_wellTyped (acc : Solicitud × Bool) (kv : String × Json)
    (h : wellTypedField kv = true) : (unmarshalStep acc kv).2 = acc.2 := by
  obtain ⟨k, v⟩ := kv
  by_cases h1 : jsonKeyMatch "nombre" k = true <;>
    by_cases h2 : jsonKeyMatch "telefono" k = true <;>
      by_cases h3 : jsonKeyMatch "servicio" k = true <;>
        cases v <;>
          simp_all [wellTypedField, unmarshalStep, unmarshalStringField]

/-- An object all of whose keys are well typed folds with the error flag it
started from. -/
theorem unmarshalFold_err_of_wellTyped (fields : List (String × Json)) :
    ∀ acc : Solicitud × Bool, (∀ kv ∈ fields, wellTypedField kv = true) →
      (fields.foldl unmarshalStep acc).2 = acc.2 := by
  induction fields with
  | nil => intro acc h; rfl
  | cons kv rest ih =>
    intro acc h
    rw [List.foldl_cons,
      ih (unmarshalStep acc kv) (fun x hx => h x (List.mem_cons_of_mem kv hx)),
      unmarshalStep_err_of_wellTyped acc kv (h kv (List.mem_cons_self kv rest))]

/-- A key that does not match the `nombre` tag leaves the `nombre` field of
the accumulator unchanged. -/
theorem unmarshalStep_nombre_of_no_match (acc : Solicitud × Bool) (kv : String × Json)
    (h : jsonKeyMatch "nombre" kv.1 = false) :
    (unmarshalStep acc kv).1.nombre = acc.1.nombre := by
  obtain ⟨k, v⟩ := kv
  by_cases h2 : jsonKeyMatch "telefono" k = true <;>
    by_cases h3 : jsonKeyMatch "servicio" k = true <;>
      simp [unmarshalStep, h, h2, h3]

/-- A key that does not match the `telefono` tag leaves the `telefono` field
of the accumulator unchanged. -/
theorem unmarshalStep_telefono_of_no_match (acc : Solicitud × Bool) (kv : String × Json)
    (h : jsonKeyMatch "telefono" kv.1 = false) :
    (unmarshalStep acc kv).1.telefono = acc.1.telefono := by
  obtain ⟨k, v⟩ := kv
  by_cases h1 : jsonKeyMatch "nombre" k = true <;>
    by_cases h3 : jsonKeyMatch "servicio" k = true <;>
      simp [unmarshalStep, h, h1, h3]

/-- A key that does not match the `servicio` tag leaves the `servicio` field
of the accumulator unchanged. -/
theorem unmarshalStep_servicio_of_no_match (acc : Solicitud × Bool) (kv : String × Json)
    (h : jsonKeyMatch "servicio" kv.1 = false) :
    (unmarshalStep acc kv).1.servicio = acc.1.servicio := by
  obtain ⟨k, v⟩ := kv
  by_cases h1 : jsonKeyMatch "nombre" k = true <;>
    by_cases h2 : jsonKeyMatch "telefono" k = true <;>
      simp [unmarshalStep, h, h1, h2]

/-- An object with no key matching `nombre` folds with that field unchanged. -/
theorem unmarshalFold_nombre_of_missing (fields : List (String × Json)) :
    ∀ acc : Solicitud × Bool, (∀ kv ∈ fields, jsonKeyMatch "nombre" kv.1 = false) →
      (fields.foldl unmarshalStep acc).1.nombre = acc.1.nombre := by
  induction fields with
  | nil => intro acc h; rfl
  | cons kv rest ih =>
    intro acc h
    rw [List.foldl_cons,
      ih (unmarshalStep acc kv) (fun x hx => h x (List.mem_cons_of_mem kv hx)),
      unmarshalStep_nombre_of_no_match acc kv (h kv (List.mem_cons_self kv rest))]

/-- An object with no key matching `telefono` folds with that field
unchanged. -/
theorem unmarshalFold_telefono_of_missing (fields : List (String × Json)) :
    ∀ acc : Solicitud × Bool, (∀ kv ∈ fields, jsonKeyMatch "telefono" kv.1 = false) →
      (fields.foldl unmarshalStep acc).1.telefono = acc.1.telefono := by
  induction fields with
  | nil => intro acc h; rfl
  | cons kv rest ih =>
    intro acc h
    rw [List.foldl_cons,
      ih (unmarshalStep acc kv) (fun x hx => h x (List.mem_cons_of_mem kv hx)),
      unmarshalStep_telefono_of_no_match acc kv (h kv (List.mem_cons_self kv rest))]

/-- An object with no key matching `servicio` folds with that field
unchanged. -/
theorem unmarshalFold_servicio_of_missing (fields : List (String × Json)) :
    ∀ acc : Solicitud × Bool, (∀ kv ∈ fields, jsonKeyMatch "servicio" kv.1 = false) →
      (fields.foldl unmarshalStep acc).1.servicio = acc.1.servicio := by
  induction fields with
  | nil => intro acc h; rfl
  | cons kv rest ih =>
    intro acc h
    rw [List.foldl_cons,
      ih (unmarshalStep acc kv) (fun x hx => h x (List.mem_cons_of_mem kv hx)),
      unmarshalStep_servicio_of_no_match acc kv (h kv (List.mem_cons_self kv rest))]

/-- C10: field presence is not enforced: a POST whose body is a JSON object
whose keys, where they match a field at all, carry values a string field
accepts (so in particular an object missing some or all of nombre, telefono,
servicio, such as the empty object) decodes successfully, is answered 200, a
row with the decoded fields is inserted, and each missing field decodes to the
empty string. -/
theorem c10_missing_fields_zero_value (fields : List (String × Json)) (db : DB)
    (hwell : ∀ kv ∈ fields, wellTypedField kv = true)
    (hok : db.healthy = true) :
    decodeSolicitud (some (Json.obj fields)) = some (unmarshalObj fields).1 ∧
    (rootHandler ⟨"POST", "/submit-service", some (Json.obj fields)⟩ db).1.status = 200 ∧
    (rootHandler ⟨"POST", "/submit-service", some (Json.obj fields)⟩ db).2.1.rows =
      db.rows ++ [⟨db.nextId, (unmarshalObj fields).1.nombre,
        (unmarshalObj fields).1.telefono, (unmarshalObj fields).1.servicio⟩] ∧
    ((∀ kv ∈ fields, jsonKeyMatch "nombre" kv.1 = false) →
      (unmarshalObj fields).1.nombre = "") ∧
    ((∀ kv ∈ fields, jsonKeyMatch "telefono" kv.1 = false) →
      (unmarshalObj fields).1.telefono = "") ∧
    ((∀ kv ∈ fields, jsonKeyMatch "servicio" kv.1 = false) →
      (unmarshalObj fields).1.servicio = "") := by
  have herr : (unmarshalObj fields).2 = false :=
    unmarshalFold_err_of_wellTyped fields (⟨"", "", ""⟩, false) hwell
  have hdec : decodeSolicitud (some (Json.obj fields)) = some (unmarshalObj fields).1 := by
    simp [decodeSolicitud, decodeSolicitudJson, herr]
  refine ⟨hdec, ?_, ?_, ?_, ?_, ?_⟩
  · simp [rootHandler, submitServiceHandler, hdec, dbExecInsert, hok]
  · simp [rootHandler, submitServiceHandler, hdec, dbExecInsert, hok]
  · exact fun h => unmarshalFold_nombre_of_missing fields (⟨"", "", ""⟩, false) h
  · exact fun h => unmarshalFold_telefono_of_missing fields (⟨"", "", ""⟩, false) h
  · exact fun h => unmarshalFold_servicio_of_missing fields (⟨"", "", ""⟩, false) h

/-- Witness for C10: the empty object decodes and inserts a row of empty
strings. -/
theorem c10_missing_fields_zero_value_witness :
    (rootHandler ⟨"POST", "/submit-service", some (Json.obj [])⟩
      ⟨0, [], true, ""⟩).2.1.rows = [⟨0, "", "", ""⟩] :=
  (c10_missing_fields_zero_value [] ⟨0, [], true, ""⟩ (by simp) rfl).2.2.1
